import Mathlib

/-!
Verification of the detail-level projection engine and the four report
encoders of the `gh-codeql-report` tool: the data model (`CodeQLAlert`,
the three flattened projection shapes), the projector
(`filterAlertByDetail`), and the JSON / Markdown / SARIF / plain-text
encoders, shallowly embedded from the TypeScript sources.
-/

/-! ## Generic string and list helpers (models of JS builtins) -/

/-- Model of JavaScript `c.repeat(n)`: the character `c` repeated `n` times. -/
def strRepeat (c : Char) (n : Nat) : String :=
  String.mk (List.replicate n c)

/-- Model of JavaScript `String.prototype.padEnd(w)` with space padding:
pads on the right up to width `w`, never truncates. -/
def padEnd (s : String) (w : Nat) : String :=
  s ++ strRepeat ' ' (w - s.length)

/-- Model of JavaScript `Array.prototype.join(sep)`. -/
def joinSep (sep : String) : List String → String
  | [] => ""
  | [l] => l
  | l :: ls => l ++ sep ++ joinSep sep ls

/-- Model of JavaScript `lines.join("\n")`, used by every encoder. -/
def joinLines (ls : List String) : String :=
  joinSep "\n" ls

/-- Model of the JS expression `row[i]?.length || 0`: length of an optional
cell, with a missing cell counting as 0. -/
def jsCellLen : Option String → Nat
  | none => 0
  | some s => s.length

/-- Model of the JS expression `row[i] || ''`: an optional cell defaulted to
the empty string (note `"" || ''` is also `''`, which is the same string). -/
def jsCellOrEmpty : Option String → String
  | none => ""
  | some s => s

/-- Model of JavaScript `String.prototype.toLowerCase()`: case-fold every
character (ASCII folding, which covers all severities in scope). -/
def jsToLower (s : String) : String :=
  String.mk (s.toList.map Char.toLower)

/-- Model of JS truthiness of an optional string field (`if (alert.help)`):
true exactly when the field is present and non-empty. -/
def strTruthy : Option String → Bool
  | none => false
  | some s => !s.isEmpty

/-! ## Minimal model of `JSON.stringify(·, null, 2)`
The repository serializes alerts with the JavaScript builtin
`JSON.stringify` at indent 2. The builtin is not repository code; the
renderers below model its output shape (quoted escaped strings, one
member per line, two-space nesting) on the concrete record shapes used
by the encoders. -/

/-- Escape of one character inside a JSON string literal (model of the
builtin's escaping for the characters that occur in practice). -/
def jsonEscapeChar (c : Char) : String :=
  if c = '"' then "\\\""
  else if c = '\\' then "\\\\"
  else if c = '\n' then "\\n"
  else if c = '\r' then "\\r"
  else if c = '\t' then "\\t"
  else String.mk [c]

/-- Escape of a whole string for inclusion in a JSON string literal. -/
def jsonEscape (s : String) : String :=
  String.join (s.toList.map jsonEscapeChar)

/-- Rendering of a JSON string literal. -/
def jsonStrLit (s : String) : String :=
  "\"" ++ jsonEscape s ++ "\""

/-- Run of `n` spaces for indentation. -/
def nSpaces (n : Nat) : String :=
  strRepeat ' ' n

/-- Lines joined by a comma and a newline, as inside a JSON object or array. -/
def joinCommaLines (ls : List String) : String :=
  joinSep ",\n" ls

/-- Rendering of a JSON object at indent `ind` from members whose values are
already rendered; members are indented two further spaces, the closing brace
sits at `ind`. -/
def renderObj (ind : Nat) (ms : List (String × String)) : String :=
  match ms with
  | [] => "\x7b\x7d"
  | _ =>
    "\x7b\n"
      ++ joinCommaLines (ms.map (fun kv => nSpaces (ind + 2) ++ jsonStrLit kv.1 ++ ": " ++ kv.2))
      ++ "\n" ++ nSpaces ind ++ "\x7d"

/-- Rendering of a JSON array at indent `ind` from already-rendered items. -/
def renderArr (ind : Nat) (items : List String) : String :=
  match items with
  | [] => "[]"
  | _ =>
    "[\n"
      ++ joinCommaLines (items.map (fun s => nSpaces (ind + 2) ++ s))
      ++ "\n" ++ nSpaces ind ++ "]"

/-! ## Data model (`src/lib/codeql.ts`) -/

/-- Rule sub-record of a CodeQL alert. -/
structure AlertRule where
  id : String
  severity : String
  description : String
  name : String
deriving DecidableEq, Repr

/-- Message sub-record (`message.text`). -/
structure AlertMessage where
  text : String
deriving DecidableEq, Repr

/-- Location sub-record of an alert instance. -/
structure AlertLocation where
  path : String
  start_line : Nat
  end_line : Nat
  start_column : Nat
  end_column : Nat
deriving DecidableEq, Repr

/-- The `most_recent_instance` sub-record of a CodeQL alert. -/
structure AlertInstance where
  ref : String
  analysis_key : String
  category : String
  state : String
  commit_sha : String
  message : AlertMessage
  location : AlertLocation
deriving DecidableEq, Repr

/-- Tool sub-record of a CodeQL alert. -/
structure AlertTool where
  name : String
  version : String
deriving DecidableEq, Repr

/-- The raw alert record fetched from the code-scanning API
(`CodeQLAlert` in `src/lib/codeql.ts`); `help` is the one optional field. -/
structure CodeQLAlert where
  number : Nat
  rule : AlertRule
  most_recent_instance : AlertInstance
  help : Option String
  tool : AlertTool
deriving DecidableEq, Repr

/-! ## Detail levels and projected shapes (`src/lib/types.ts`) -/

/-- The four detail levels. -/
inductive DetailLevel where
  | minimum
  | medium
  | full
  | raw
deriving DecidableEq, Repr

/-- String form of a detail level, as interpolated into report headers. -/
def DetailLevel.toStr : DetailLevel → String
  | .minimum => "minimum"
  | .medium => "medium"
  | .full => "full"
  | .raw => "raw"

/-- Flattened alert with the minimum essential fields. -/
structure MinimumAlert where
  number : Nat
  rule_id : String
  rule_name : String
  severity : String
  message : String
  file_path : String
  start_line : Nat
  end_line : Nat
  commit_sha : String
deriving DecidableEq, Repr

/-- Medium detail level adds helpful context fields. -/
structure MediumAlert extends MinimumAlert where
  rule_description : String
  start_column : Nat
  end_column : Nat
  state : String
deriving DecidableEq, Repr

/-- Full detail level includes all available metadata; `help_text` is
optional (`none` models the JS field being absent from the object). -/
structure FullAlert extends MediumAlert where
  ref : String
  analysis_key : String
  category : String
  tool_name : String
  tool_version : String
  help_text : Option String
deriving DecidableEq, Repr

/-- One of the three flattened projection shapes
(`MinimumAlert | MediumAlert | FullAlert` in the source). -/
inductive FlatAlert where
  | minimum (a : MinimumAlert)
  | medium (a : MediumAlert)
  | full (a : FullAlert)
deriving DecidableEq, Repr

/-- Result type of `filterAlertByDetail`
(`MinimumAlert | MediumAlert | FullAlert | CodeQLAlert` in the source). -/
inductive FilteredAlert where
  | flat (f : FlatAlert)
  | raw (a : CodeQLAlert)
deriving DecidableEq, Repr

/-! ## The detail projector (`filterAlertByDetail` in `src/lib/types.ts`) -/

/-- Filter alert data based on detail level: returns a flattened structure at
`minimum`/`medium`/`full`, or the raw `CodeQLAlert` for the `raw` level.
At `full`, `help_text` is set only when `alert.help` is truthy
(`if (alert.help) fullAlert.help_text = alert.help`). -/
def filterAlertByDetail (alert : CodeQLAlert) (level : DetailLevel) : FilteredAlert :=
  match level with
  | .raw => .raw alert
  | .full =>
    .flat (.full
      { number := alert.number
        rule_id := alert.rule.id
        rule_name := alert.rule.name
        severity := alert.rule.severity
        message := alert.most_recent_instance.message.text
        file_path := alert.most_recent_instance.location.path
        start_line := alert.most_recent_instance.location.start_line
        end_line := alert.most_recent_instance.location.end_line
        commit_sha := alert.most_recent_instance.commit_sha
        rule_description := alert.rule.description
        start_column := alert.most_recent_instance.location.start_column
        end_column := alert.most_recent_instance.location.end_column
        state := alert.most_recent_instance.state
        ref := alert.most_recent_instance.ref
        analysis_key := alert.most_recent_instance.analysis_key
        category := alert.most_recent_instance.category
        tool_name := alert.tool.name
        tool_version := alert.tool.version
        help_text := if strTruthy alert.help then alert.help else none })
  | .medium =>
    .flat (.medium
      { number := alert.number
        rule_id := alert.rule.id
        rule_name := alert.rule.name
        severity := alert.rule.severity
        message := alert.most_recent_instance.message.text
        file_path := alert.most_recent_instance.location.path
        start_line := alert.most_recent_instance.location.start_line
        end_line := alert.most_recent_instance.location.end_line
        commit_sha := alert.most_recent_instance.commit_sha
        rule_description := alert.rule.description
        start_column := alert.most_recent_instance.location.start_column
        end_column := alert.most_recent_instance.location.end_column
        state := alert.most_recent_instance.state })
  | .minimum =>
    .flat (.minimum
      { number := alert.number
        rule_id := alert.rule.id
        rule_name := alert.rule.name
        severity := alert.rule.severity
        message := alert.most_recent_instance.message.text
        file_path := alert.most_recent_instance.location.path
        start_line := alert.most_recent_instance.location.start_line
        end_line := alert.most_recent_instance.location.end_line
        commit_sha := alert.most_recent_instance.commit_sha })

/-! ## Field access on flattened alerts
The encoders read the common fields off whichever flattened shape the
projector returned, and probe the optional ones with the JS `in` operator;
the accessors below model the common reads, and the JS object key set of
each shape is `FlatAlert.fields`. -/

/-- JS object key set of a flattened alert, in construction order; at the
full level `help_text` is a key exactly when it was attached. -/
def FlatAlert.fields : FlatAlert → List String
  | .minimum _ =>
    ["number", "rule_id", "rule_name", "severity", "message", "file_path",
     "start_line", "end_line", "commit_sha"]
  | .medium _ =>
    ["number", "rule_id", "rule_name", "severity", "message", "file_path",
     "start_line", "end_line", "commit_sha", "rule_description",
     "start_column", "end_column", "state"]
  | .full f =>
    ["number", "rule_id", "rule_name", "severity", "message", "file_path",
     "start_line", "end_line", "commit_sha", "rule_description",
     "start_column", "end_column", "state", "ref", "analysis_key",
     "category", "tool_name", "tool_version"]
      ++ (match f.help_text with | some _ => ["help_text"] | none => [])

/-- Access to the always-present `number` field. -/
def FlatAlert.number : FlatAlert → Nat
  | .minimum a => a.number
  | .medium a => a.number
  | .full a => a.number

/-- Access to the always-present `rule_id` field. -/
def FlatAlert.rule_id : FlatAlert → String
  | .minimum a => a.rule_id
  | .medium a => a.rule_id
  | .full a => a.rule_id

/-- Access to the always-present `rule_name` field. -/
def FlatAlert.rule_name : FlatAlert → String
  | .minimum a => a.rule_name
  | .medium a => a.rule_name
  | .full a => a.rule_name

/-- Access to the always-present `severity` field. -/
def FlatAlert.severity : FlatAlert → String
  | .minimum a => a.severity
  | .medium a => a.severity
  | .full a => a.severity

/-- Access to the always-present `message` field. -/
def FlatAlert.message : FlatAlert → String
  | .minimum a => a.message
  | .medium a => a.message
  | .full a => a.message

/-- Access to the always-present `file_path` field. -/
def FlatAlert.file_path : FlatAlert → String
  | .minimum a => a.file_path
  | .medium a => a.file_path
  | .full a => a.file_path

/-- Access to the always-present `start_line` field. -/
def FlatAlert.start_line : FlatAlert → Nat
  | .minimum a => a.start_line
  | .medium a => a.start_line
  | .full a => a.start_line

/-- Access to the always-present `end_line` field. -/
def FlatAlert.end_line : FlatAlert → Nat
  | .minimum a => a.end_line
  | .medium a => a.end_line
  | .full a => a.end_line

/-- Access to the always-present `commit_sha` field. -/
def FlatAlert.commit_sha : FlatAlert → String
  | .minimum a => a.commit_sha
  | .medium a => a.commit_sha
  | .full a => a.commit_sha

/-! ## Serialization of raw and flattened alerts
(the `JSON.stringify(·, null, 2)` calls in the encoders) -/

/-- Serialization of a raw `CodeQLAlert` at indent `ind`, with the object
keys in interface order and `help` omitted when absent. -/
def stringifyCodeQLAlert (ind : Nat) (a : CodeQLAlert) : String :=
  renderObj ind
    ([("number", toString a.number),
      ("rule", renderObj (ind + 2)
        [("id", jsonStrLit a.rule.id),
         ("severity", jsonStrLit a.rule.severity),
         ("description", jsonStrLit a.rule.description),
         ("name", jsonStrLit a.rule.name)]),
      ("most_recent_instance", renderObj (ind + 2)
        [("ref", jsonStrLit a.most_recent_instance.ref),
         ("analysis_key", jsonStrLit a.most_recent_instance.analysis_key),
         ("category", jsonStrLit a.most_recent_instance.category),
         ("state", jsonStrLit a.most_recent_instance.state),
         ("commit_sha", jsonStrLit a.most_recent_instance.commit_sha),
         ("message", renderObj (ind + 4)
           [("text", jsonStrLit a.most_recent_instance.message.text)]),
         ("location", renderObj (ind + 4)
           [("path", jsonStrLit a.most_recent_instance.location.path),
            ("start_line", toString a.most_recent_instance.location.start_line),
            ("end_line", toString a.most_recent_instance.location.end_line),
            ("start_column", toString a.most_recent_instance.location.start_column),
            ("end_column", toString a.most_recent_instance.location.end_column)])])]
      ++ (match a.help with | some h => [("help", jsonStrLit h)] | none => [])
      ++ [("tool", renderObj (ind + 2)
            [("name", jsonStrLit a.tool.name),
             ("version", jsonStrLit a.tool.version)])])

/-- Rendered members of the minimum field block, shared by all three
flattened shapes. -/
def minMembers (m : MinimumAlert) : List (String × String) :=
  [("number", toString m.number),
   ("rule_id", jsonStrLit m.rule_id),
   ("rule_name", jsonStrLit m.rule_name),
   ("severity", jsonStrLit m.severity),
   ("message", jsonStrLit m.message),
   ("file_path", jsonStrLit m.file_path),
   ("start_line", toString m.start_line),
   ("end_line", toString m.end_line),
   ("commit_sha", jsonStrLit m.commit_sha)]

/-- Rendered members added at the medium level. -/
def medExtraMembers (m : MediumAlert) : List (String × String) :=
  [("rule_description", jsonStrLit m.rule_description),
   ("start_column", toString m.start_column),
   ("end_column", toString m.end_column),
   ("state", jsonStrLit m.state)]

/-- Rendered members added at the full level, with `help_text` present only
when it was attached. -/
def fullExtraMembers (f : FullAlert) : List (String × String) :=
  [("ref", jsonStrLit f.ref),
   ("analysis_key", jsonStrLit f.analysis_key),
   ("category", jsonStrLit f.category),
   ("tool_name", jsonStrLit f.tool_name),
   ("tool_version", jsonStrLit f.tool_version)]
    ++ (match f.help_text with | some h => [("help_text", jsonStrLit h)] | none => [])

/-- Serialization of any `filterAlertByDetail` result at indent `ind`. -/
def stringifyFilteredAlert (ind : Nat) : FilteredAlert → String
  | .raw a => stringifyCodeQLAlert ind a
  | .flat (.minimum m) => renderObj ind (minMembers m)
  | .flat (.medium m) => renderObj ind (minMembers m.toMinimumAlert ++ medExtraMembers m)
  | .flat (.full f) =>
    renderObj ind
      (minMembers f.toMinimumAlert ++ medExtraMembers f.toMediumAlert ++ fullExtraMembers f)

/-! ## JSON encoder (`formatAsJSON` in `src/formatters/json.ts`) -/

/-- Format alerts as JSON: project every alert at the given level and
serialize the resulting array with indent 2. -/
def formatAsJSON (alerts : List CodeQLAlert) (detailLevel : DetailLevel) : String :=
  renderArr 0 (alerts.map (fun alert => stringifyFilteredAlert 2 (filterAlertByDetail alert detailLevel)))

/-! ## Markdown table layout (`generateMarkdownTable` in `src/formatters/markdown.ts`) -/

/-- Column widths of the table: for each header position `i`,
`Math.max(header.length, ...rows.map(row => row[i]?.length || 0))`. -/
def tableColumnWidths (headers : List String) (rows : List (List String)) : List Nat :=
  headers.enum.map (fun ih =>
    (rows.map (fun row => jsCellLen (row.get? ih.1))).foldl Nat.max ih.2.length)

/-- Header row body: each header cell right-padded to its column width,
joined by a column separator. -/
def tableHeaderRow (headers : List String) (ws : List Nat) : String :=
  joinSep " | " (headers.enum.map (fun ih => padEnd ih.2 (ws.getD ih.1 0)))

/-- Separator row body: a run of dashes per column width. -/
def tableSepRow (ws : List Nat) : String :=
  joinSep " | " (ws.map (fun w => strRepeat '-' w))

/-- Padded cells of one data row:
`Array.from({length: headers.length}, (_, i) => row[i] || '')`. -/
def tablePaddedCells (headers : List String) (row : List String) : List String :=
  (List.range headers.length).map (fun i => jsCellOrEmpty (row.get? i))

/-- Data row body: the padded cells each right-padded to the column width,
joined by a column separator. -/
def tableDataRow (headers : List String) (ws : List Nat) (row : List String) : String :=
  joinSep " | " ((tablePaddedCells headers row).enum.map (fun ic => padEnd ic.2 (ws.getD ic.1 0)))

/-- Generate a markdown table from 2-D array data; the first row is the
header row, later rows are data rows; empty input yields the empty string. -/
def generateMarkdownTable (data : List (List String)) : String :=
  match data with
  | [] => ""
  | headers :: rows =>
    joinLines
      (("| " ++ tableHeaderRow headers (tableColumnWidths headers rows) ++ " |")
        :: ("| " ++ tableSepRow (tableColumnWidths headers rows) ++ " |")
        :: rows.map (fun row => "| " ++ tableDataRow headers (tableColumnWidths headers rows) row ++ " |"))

/-! ## Markdown encoder (`formatAsMarkdown` in `src/formatters/markdown.ts`) -/

/-- One step of the severity-count fold: bump the count of `sev` in place if
present, else append a new entry (models insertion-ordered JS object keys). -/
def bumpCount : List (String × Nat) → String → List (String × Nat)
  | [], sev => [(sev, 1)]
  | (k, n) :: rest, sev =>
    if k = sev then (k, n + 1) :: rest else (k, n) :: bumpCount rest sev

/-- Counts of alerts grouped by lowercased `rule.severity`, in first-seen
order (the `alerts.reduce` accumulator of the markdown encoder). -/
def severityCounts (alerts : List CodeQLAlert) : List (String × Nat) :=
  alerts.foldl (fun acc alert => bumpCount acc (jsToLower alert.rule.severity)) []

/-- Input of the summary table: a header row, then one row per severity. -/
def summaryTableData (alerts : List CodeQLAlert) : List (List String) :=
  ["Severity", "Count"] :: (severityCounts alerts).map (fun kv => [kv.1, toString kv.2])

/-- Description line of a markdown alert section, rendered only when the
projection carries `rule_description` (`'rule_description' in flatAlert`). -/
def mdDescLines : FlatAlert → List String
  | .minimum _ => []
  | .medium m => ["**Description:** " ++ m.rule_description]
  | .full f => ["**Description:** " ++ f.rule_description]

/-- Column-range line of a markdown alert section, rendered only when the
projection carries `start_column` (`'start_column' in flatAlert`). -/
def mdColLines : FlatAlert → List String
  | .minimum _ => []
  | .medium m => ["- **Columns:** " ++ toString m.start_column ++ "-" ++ toString m.end_column]
  | .full f => ["- **Columns:** " ++ toString f.start_column ++ "-" ++ toString f.end_column]

/-- State line of a markdown alert section, rendered only when the
projection carries `state` (`'state' in flatAlert`). -/
def mdStateLines : FlatAlert → List String
  | .minimum _ => []
  | .medium m => ["- **State:** " ++ m.state]
  | .full f => ["- **State:** " ++ f.state]

/-- Reference line of a markdown alert section, rendered only when the
projection carries `ref` (`'ref' in flatAlert`, i.e. at full level). -/
def mdRefLines : FlatAlert → List String
  | .minimum _ => []
  | .medium _ => []
  | .full f => ["- **Reference:** " ++ f.ref]

/-- Lines of one markdown alert section; a raw projection is dumped as a
fenced JSON code block instead. -/
def mdAlertBlock : FilteredAlert → List String
  | .raw a => ["```json", stringifyCodeQLAlert 0 a, "```", "", "---", ""]
  | .flat fa =>
    ["### Alert #" ++ toString fa.number ++ ": " ++ fa.rule_name,
     "",
     "**Rule ID:** `" ++ fa.rule_id ++ "`",
     "**Severity:** " ++ fa.severity]
    ++ mdDescLines fa
    ++ ["", "#### Location", "",
        "- **File:** `" ++ fa.file_path ++ "`",
        "- **Lines:** " ++ toString fa.start_line ++ "-" ++ toString fa.end_line]
    ++ mdColLines fa
    ++ ["", "#### Message", "", fa.message, "", "#### Details", "",
        "- **Commit:** `" ++ fa.commit_sha ++ "`"]
    ++ mdStateLines fa
    ++ mdRefLines fa
    ++ ["", "---", ""]

/-- Lines of the whole markdown report. The source interpolates
`new Date().toISOString()` into the Generated header line; the wall clock
reading is the explicit `now` argument here. -/
def formatAsMarkdownLines
    (alerts : List CodeQLAlert) (repoName : String) (detailLevel : DetailLevel)
    (now : String) : List String :=
  ["# CodeQL Security Scan Report",
   "",
   "**Repository:** " ++ repoName,
   "**Total Alerts:** " ++ toString alerts.length,
   "**Detail Level:** " ++ detailLevel.toStr,
   "**Generated:** " ++ now,
   "", "---", "",
   "## Summary by Severity", "",
   generateMarkdownTable (summaryTableData alerts), "",
   "## Detailed Alerts", ""]
  ++ (alerts.map (fun alert => mdAlertBlock (filterAlertByDetail alert detailLevel))).flatten

/-- Format alerts as Markdown (`now` is the wall-clock ISO timestamp the
source obtains from `new Date().toISOString()`). -/
def formatAsMarkdown
    (alerts : List CodeQLAlert) (repoName : String) (detailLevel : DetailLevel)
    (now : String) : String :=
  joinLines (formatAsMarkdownLines alerts repoName detailLevel now)

/-! ## Plain-text encoder (`formatAsText` in `src/formatters/text.ts`) -/

/-- Description line of a plain-text record block, rendered only when the
projection carries `rule_description` (`'rule_description' in flatAlert`). -/
def textDescLines : FlatAlert → List String
  | .minimum _ => []
  | .medium m => ["Description: " ++ m.rule_description]
  | .full f => ["Description: " ++ f.rule_description]

/-- Column-range line of a plain-text record block, rendered only when the
projection carries `start_column` (`'start_column' in flatAlert`). -/
def textColLines : FlatAlert → List String
  | .minimum _ => []
  | .medium m => ["  Columns: " ++ toString m.start_column ++ "-" ++ toString m.end_column]
  | .full f => ["  Columns: " ++ toString f.start_column ++ "-" ++ toString f.end_column]

/-- State line of a plain-text record block, rendered only when the
projection carries `state` (`'state' in flatAlert`). -/
def textStateLines : FlatAlert → List String
  | .minimum _ => []
  | .medium m => ["State: " ++ m.state]
  | .full f => ["State: " ++ f.state]

/-- Lines of one plain-text record block; a raw projection is dumped as an
indented JSON blob between separators instead. -/
def textAlertBlock : FilteredAlert → List String
  | .raw a => [stringifyCodeQLAlert 0 a, strRepeat '-' 80 ++ "\n"]
  | .flat fa =>
    ["Alert #" ++ toString fa.number,
     "Rule: " ++ fa.rule_id,
     "Name: " ++ fa.rule_name,
     "Severity: " ++ fa.severity]
    ++ textDescLines fa
    ++ ["", "Location:",
        "  File: " ++ fa.file_path,
        "  Lines: " ++ toString fa.start_line ++ "-" ++ toString fa.end_line]
    ++ textColLines fa
    ++ ["", "Message:", "  " ++ fa.message, "", "Commit: " ++ fa.commit_sha]
    ++ textStateLines fa
    ++ [strRepeat '-' 80 ++ "\n"]

/-- Lines of the whole plain-text report. -/
def formatAsTextLines (alerts : List CodeQLAlert) (detailLevel : DetailLevel) : List String :=
  ["CodeQL Security Scan Report",
   "Total Alerts: " ++ toString alerts.length,
   "Detail Level: " ++ detailLevel.toStr,
   strRepeat '=' 80 ++ "\n"]
  ++ (alerts.map (fun alert => textAlertBlock (filterAlertByDetail alert detailLevel))).flatten

/-- Format alerts as plain text. -/
def formatAsText (alerts : List CodeQLAlert) (detailLevel : DetailLevel) : String :=
  joinLines (formatAsTextLines alerts detailLevel)

/-! ## SARIF encoder (`formatAsSARIF` in `src/formatters/sarif.ts`) -/

/-- SARIF result level, the closed codomain of the severity mapping. -/
inductive SarifLevel where
  | error
  | warning
  | note
deriving DecidableEq, Repr

/-- String form of a SARIF level. -/
def SarifLevel.toStr : SarifLevel → String
  | .error => "error"
  | .warning => "warning"
  | .note => "note"

/-- Map a free-text severity onto a SARIF level by case-folded lookup
(the `switch (severity.toLowerCase())` of the source). -/
def mapSeverityToLevel (severity : String) : SarifLevel :=
  if jsToLower severity = "error" ∨ jsToLower severity = "critical" then .error
  else if jsToLower severity = "warning" ∨ jsToLower severity = "medium" then .warning
  else .note

/-- One SARIF result as the encoder initializes it (`result.initSimple`). -/
structure SarifResult where
  ruleId : String
  level : SarifLevel
  messageText : String
  fileUri : String
  startLine : Nat
  startColumn : Nat
deriving DecidableEq, Repr

/-- The single SARIF run the encoder builds: tool driver name and version
plus one result per alert. -/
structure SarifRun where
  toolDriverName : String
  toolDriverVersion : String
  results : List SarifResult
deriving DecidableEq, Repr

/-- Start column the encoder emits:
`'start_column' in flatAlert ? flatAlert.start_column : 1`. -/
def FlatAlert.startColumnOr1 : FlatAlert → Nat
  | .minimum _ => 1
  | .medium m => m.start_column
  | .full f => f.start_column

/-- Tool driver version: the fixed placeholder `"1.0.0"` unless the level is
full and at least one alert exists, in which case the first alert's full
projection supplies `tool_version`. -/
def sarifToolVersion (alerts : List CodeQLAlert) (detailLevel : DetailLevel) : String :=
  match detailLevel, alerts with
  | .full, a :: _ =>
    match filterAlertByDetail a .full with
    | .flat (.full f) => f.tool_version
    | _ => "1.0.0"
  | _, _ => "1.0.0"

/-- One SARIF result built from a flattened alert. -/
def sarifResultOfFlat (fa : FlatAlert) : SarifResult :=
  { ruleId := fa.rule_id
    level := mapSeverityToLevel fa.severity
    messageText := fa.message
    fileUri := fa.file_path
    startLine := fa.start_line
    startColumn := fa.startColumnOr1 }

/-- The SARIF run built at a non-raw detail level: one result per alert in
input order. The `.raw` match arm is unreachable because
`filterAlertByDetail` returns a raw record only at the raw level, which
`formatAsSARIF` handles before building a run. -/
def sarifRunOf (alerts : List CodeQLAlert) (detailLevel : DetailLevel) : SarifRun :=
  { toolDriverName := "CodeQL"
    toolDriverVersion := sarifToolVersion alerts detailLevel
    results := alerts.map (fun alert =>
      match filterAlertByDetail alert detailLevel with
      | .flat fa => sarifResultOfFlat fa
      | .raw _ => { ruleId := "", level := .note, messageText := "", fileUri := "",
                    startLine := 0, startColumn := 0 }) }

/-- Modelled from the spec: the serialization performed by the external
`node-sarif-builder` library (`buildSarifJsonString`), which is not part of
this repository's sources. Per the spec's external-interface section the
document carries a top-level schema URL, version 2.1.0, and one run with a
tool driver (name, version) and one result per alert with rule id, level,
message text and one physical location (uri, line, column). -/
def renderSarifLog (run : SarifRun) : String :=
  renderObj 0
    [("$schema", jsonStrLit "https://raw.githubusercontent.com/oasis-tcs/sarif-spec/master/Schemata/sarif-schema-2.1.0.json"),
     ("version", jsonStrLit "2.1.0"),
     ("runs", renderArr 2
       [renderObj 4
         [("tool", renderObj 6
            [("driver", renderObj 8
               [("name", jsonStrLit run.toolDriverName),
                ("version", jsonStrLit run.toolDriverVersion)])]),
          ("results", renderArr 6
            (run.results.map (fun r => renderObj 8
              [("ruleId", jsonStrLit r.ruleId),
               ("level", jsonStrLit r.level.toStr),
               ("message", renderObj 10 [("text", jsonStrLit r.messageText)]),
               ("locations", renderArr 10
                 [renderObj 12
                   [("physicalLocation", renderObj 14
                      [("artifactLocation", renderObj 16 [("uri", jsonStrLit r.fileUri)]),
                       ("region", renderObj 16
                         [("startLine", toString r.startLine),
                          ("startColumn", toString r.startColumn)])])]])])))]])]

/-- Format alerts as SARIF: the raw level is serialized directly as JSON
(SARIF does not apply to raw dumps); otherwise one run is built and
serialized. -/
def formatAsSARIF
    (alerts : List CodeQLAlert) (_repoName : String) (detailLevel : DetailLevel) : String :=
  if detailLevel = .raw then
    renderArr 0 (alerts.map (fun alert => stringifyCodeQLAlert 2 alert))
  else
    renderSarifLog (sarifRunOf alerts detailLevel)

/-! ## Specification-side definitions
The definitions below restate, in the spec's own words, the shapes the
claims compare the source against. -/

/-- Field set of the minimum-level projection, as the spec's data model
lists it. -/
def specMinimumFields : List String :=
  ["number", "rule_id", "rule_name", "severity", "message", "file_path",
   "start_line", "end_line", "commit_sha"]

/-- Field set of the medium-level projection: minimum plus the four context
fields. -/
def specMediumFields : List String :=
  specMinimumFields ++ ["rule_description", "start_column", "end_column", "state"]

/-- Mandatory field set of the full-level projection: medium plus the five
metadata fields (`help_text` is the one optional extra). -/
def specFullFieldsBase : List String :=
  specMediumFields ++ ["ref", "analysis_key", "category", "tool_name", "tool_version"]

/-- Field set of the record `filterAlertByDetail` returns for an alert at a
level (the raw level returns the raw alert's own key set, which no claim
inspects). -/
def projFields (a : CodeQLAlert) (level : DetailLevel) : List String :=
  match filterAlertByDetail a level with
  | .flat f => f.fields
  | .raw r =>
    ["number", "rule", "most_recent_instance"]
      ++ (match r.help with | some _ => ["help"] | none => [])
      ++ ["tool"]

/-- The `help_text` field of the full-level projection of an alert
(`none` models the field being absent from the JS object). -/
def fullHelpText (a : CodeQLAlert) : Option String :=
  match filterAlertByDetail a .full with
  | .flat (.full f) => f.help_text
  | _ => none

/-- Column width per the spec's table-layout algorithm: the maximum string
length among the header cell and all data-row cells at position `i`, a
missing cell counting as an empty string of width 0. -/
def specColWidth (headers : List String) (rows : List (List String)) (i : Nat) : Nat :=
  Nat.max (headers.getD i "").length ((rows.map (fun row => (row.getD i "").length)).foldr Nat.max 0)

/-- Markdown report lines strictly before the Generated timestamp line;
they depend only on the encoder's arguments, never on the clock. -/
def mdLinesBefore (alerts : List CodeQLAlert) (repoName : String) (detailLevel : DetailLevel) :
    List String :=
  ["# CodeQL Security Scan Report",
   "",
   "**Repository:** " ++ repoName,
   "**Total Alerts:** " ++ toString alerts.length,
   "**Detail Level:** " ++ detailLevel.toStr]

/-- Markdown report lines strictly after the Generated timestamp line;
they depend only on the encoder's arguments, never on the clock. -/
def mdLinesAfter (alerts : List CodeQLAlert) (detailLevel : DetailLevel) : List String :=
  ["", "---", "",
   "## Summary by Severity", "",
   generateMarkdownTable (summaryTableData alerts), "",
   "## Detailed Alerts", ""]
  ++ (alerts.map (fun alert => mdAlertBlock (filterAlertByDetail alert detailLevel))).flatten

/-- Plain-text record block of one alert at minimum level, as the spec
describes it: number, rule id, rule name, severity, location, message and
commit hash, with no description, column-range or state line. -/
def specTextMinBlock (a : CodeQLAlert) : List String :=
  ["Alert #" ++ toString a.number,
   "Rule: " ++ a.rule.id,
   "Name: " ++ a.rule.name,
   "Severity: " ++ a.rule.severity,
   "", "Location:",
   "  File: " ++ a.most_recent_instance.location.path,
   "  Lines: " ++ toString a.most_recent_instance.location.start_line ++ "-"
     ++ toString a.most_recent_instance.location.end_line,
   "", "Message:",
   "  " ++ a.most_recent_instance.message.text,
   "", "Commit: " ++ a.most_recent_instance.commit_sha,
   strRepeat '-' 80 ++ "\n"]

/-- Markdown subsection of one alert at minimum level, as the spec
describes it: title, rule id, severity, location, message and commit hash,
with no description, column-range, state or reference line. -/
def specMdMinBlock (a : CodeQLAlert) : List String :=
  ["### Alert #" ++ toString a.number ++ ": " ++ a.rule.name,
   "",
   "**Rule ID:** `" ++ a.rule.id ++ "`",
   "**Severity:** " ++ a.rule.severity,
   "", "#### Location", "",
   "- **File:** `" ++ a.most_recent_instance.location.path ++ "`",
   "- **Lines:** " ++ toString a.most_recent_instance.location.start_line ++ "-"
     ++ toString a.most_recent_instance.location.end_line,
   "", "#### Message", "",
   a.most_recent_instance.message.text,
   "", "#### Details", "",
   "- **Commit:** `" ++ a.most_recent_instance.commit_sha ++ "`",
   "", "---", ""]

/-! ## Sample alerts used by the concrete witnesses -/

/-- Sample alert mirroring the repository's test fixture. -/
def sampleAlert : CodeQLAlert :=
  { number := 1
    rule := { id := "js/sql-injection", severity := "error",
              description := "SQL injection vulnerability", name := "SQL Injection" }
    most_recent_instance :=
      { ref := "refs/heads/main", analysis_key := "test-analysis", category := "security",
        state := "open", commit_sha := "abc123",
        message := { text := "Potential SQL injection detected" },
        location := { path := "src/database.js", start_line := 10, end_line := 12,
                      start_column := 5, end_column := 20 } }
    help := none
    tool := { name := "CodeQL", version := "2.0.0" } }

/-- Sample alert with a non-empty help text. -/
def sampleAlertWithHelp : CodeQLAlert :=
  { sampleAlert with help := some "See the documentation" }

/-- Sample alert whose help field is present but empty. -/
def sampleAlertEmptyHelp : CodeQLAlert :=
  { sampleAlert with help := some "" }

/-! ## Claims -/

/-- C1: for every alert and every level among minimum, medium and full, the
projection returned by `filterAlertByDetail` carries exactly the field set
the data model defines for that level (`help_text` appearing at full exactly
when the source help field is truthy), and the field sets are nested:
minimum ⊆ medium ⊆ full. -/
theorem c1_projection_field_sets (a : CodeQLAlert) :
    projFields a .minimum = specMinimumFields
    ∧ projFields a .medium = specMediumFields
    ∧ projFields a .full
        = specFullFieldsBase ++ (if strTruthy a.help then ["help_text"] else [])
    ∧ specMinimumFields ⊆ specMediumFields
    ∧ specMediumFields ⊆ projFields a .full := by
  refine ⟨rfl, rfl, ?_, ?_, ?_⟩
  · cases ha : a.help with
    | none =>
      simp [projFields, filterAlertByDetail, FlatAlert.fields, strTruthy, ha,
        specFullFieldsBase, specMediumFields, specMinimumFields]
    | some s =>
      by_cases hs : s.isEmpty
      · simp [projFields, filterAlertByDetail, FlatAlert.fields, strTruthy, ha, hs,
          specFullFieldsBase, specMediumFields, specMinimumFields]
      · simp [projFields, filterAlertByDetail, FlatAlert.fields, strTruthy, ha, hs,
          specFullFieldsBase, specMediumFields, specMinimumFields]
  · decide
  · intro x hx
    have hbase : x ∈ specFullFieldsBase := by
      simp only [specFullFieldsBase, List.mem_append]
      exact Or.inl hx
    have : projFields a .full
        = specFullFieldsBase ++ (if strTruthy a.help then ["help_text"] else []) := by
      cases ha : a.help with
      | none =>
        simp [projFields, filterAlertByDetail, FlatAlert.fields, strTruthy, ha,
          specFullFieldsBase, specMediumFields, specMinimumFields]
      | some s =>
        by_cases hs : s.isEmpty
        · simp [projFields, filterAlertByDetail, FlatAlert.fields, strTruthy, ha, hs,
            specFullFieldsBase, specMediumFields, specMinimumFields]
        · simp [projFields, filterAlertByDetail, FlatAlert.fields, strTruthy, ha, hs,
            specFullFieldsBase, specMediumFields, specMinimumFields]
    rw [this]
    exact List.mem_append_left _ hbase

/-- C2: projecting at the raw level is the identity: `filterAlertByDetail`
returns the input alert itself, structurally unchanged, with no field
selection or flattening applied. -/
theorem c2_raw_identity (a : CodeQLAlert) :
    filterAlertByDetail a .raw = .raw a := rfl

/-- C3: the full-level projection carries `help_text` exactly when the
source alert's help field is a present, non-empty string; when help is
absent or empty the field is omitted entirely (`none`), never set to the
empty string. -/
theorem c3_help_text_iff (a : CodeQLAlert) :
    (("help_text" ∈ projFields a .full) ↔ ∃ s, a.help = some s ∧ s ≠ "")
    ∧ (∀ s, a.help = some s → s ≠ "" → fullHelpText a = some s)
    ∧ ((a.help = none ∨ a.help = some "") → fullHelpText a = none) := by
  refine ⟨?_, ?_, ?_⟩
  · cases ha : a.help with
    | none =>
      simp [projFields, filterAlertByDetail, FlatAlert.fields, strTruthy, ha,
        specFullFieldsBase, specMediumFields, specMinimumFields]
    | some s =>
      by_cases hs : s.isEmpty
      · have hs' : s = "" := (String.isEmpty_iff s).mp hs
        subst hs'
        have h0 : ("" : String).isEmpty = true := by decide
        simp [projFields, filterAlertByDetail, FlatAlert.fields, strTruthy, ha, h0]
      · have hs' : s ≠ "" := fun h => hs ((String.isEmpty_iff s).mpr h)
        constructor
        · intro _
          exact ⟨s, rfl, hs'⟩
        · intro _
          simp [projFields, filterAlertByDetail, FlatAlert.fields, strTruthy, ha, hs]
  · intro s hs hne
    have hemp : s.isEmpty = false := by
      cases h : s.isEmpty with
      | true => exact absurd ((String.isEmpty_iff s).mp h) hne
      | false => rfl
    simp [fullHelpText, filterAlertByDetail, strTruthy, hs, hemp]
  · intro h
    cases h with
    | inl h => simp [fullHelpText, filterAlertByDetail, strTruthy, h]
    | inr h =>
      have h0 : ("" : String).isEmpty = true := by decide
      simp [fullHelpText, filterAlertByDetail, strTruthy, h, h0]

/-- Witness for C3 at concrete alerts: a non-empty help string is carried
over, an absent and an empty help both leave `help_text` absent. -/
theorem c3_help_text_iff_witness :
    fullHelpText sampleAlertWithHelp = some "See the documentation"
    ∧ fullHelpText sampleAlert = none
    ∧ fullHelpText sampleAlertEmptyHelp = none :=
  ⟨(c3_help_text_iff sampleAlertWithHelp).2.1 "See the documentation" rfl (by decide),
   (c3_help_text_iff sampleAlert).2.2 (Or.inl rfl),
   (c3_help_text_iff sampleAlertEmptyHelp).2.2 (Or.inr rfl)⟩

/-- C4 counterexample: `formatAsMarkdown` is not a deterministic function of
the alert list, repository name and detail level alone — two invocations
with identical inputs but different wall-clock readings produce different
output strings, because the encoder interpolates
`new Date().toISOString()` into its Generated header line. -/
theorem c4_markdown_clock_counterexample :
    formatAsMarkdown [sampleAlert] "octo/repo" DetailLevel.minimum "2024-01-01T00:00:00.000Z"
      ≠ formatAsMarkdown [sampleAlert] "octo/repo" DetailLevel.minimum "2025-02-02T12:34:56.789Z" := by
  decide

/-- C4 amended: `formatAsJSON`, `formatAsSARIF` and `formatAsText` are pure
functions of their arguments (their embeddings consume no clock), while
`formatAsMarkdown` depends on the wall clock in exactly one place: its
output is the lines before the Generated header, then the Generated line
carrying the timestamp, then lines after it, where both surrounding pieces
(`mdLinesBefore`, `mdLinesAfter`) are functions of the arguments only. Two
markdown invocations agree exactly when their clock readings agree. -/
theorem c4_encoders_deterministic_amended
    (alerts : List CodeQLAlert) (repoName : String) (detailLevel : DetailLevel) (now : String) :
    formatAsMarkdownLines alerts repoName detailLevel now
      = mdLinesBefore alerts repoName detailLevel
          ++ ("**Generated:** " ++ now) :: mdLinesAfter alerts detailLevel
    ∧ formatAsMarkdown alerts repoName detailLevel now
      = joinLines (mdLinesBefore alerts repoName detailLevel
          ++ ("**Generated:** " ++ now) :: mdLinesAfter alerts detailLevel) :=
  ⟨rfl, rfl⟩

/-- C6: the SARIF severity mapping is a total case-insensitive lookup: it
yields error exactly on case-folds of "error"/"critical", warning exactly on
case-folds of "warning"/"medium", and note on every other string (totality
is by construction: the function is defined on all of `String`). -/
theorem c6_severity_mapping (s : String) :
    (mapSeverityToLevel s = .error ↔ (jsToLower s = "error" ∨ jsToLower s = "critical"))
    ∧ (mapSeverityToLevel s = .warning ↔ (jsToLower s = "warning" ∨ jsToLower s = "medium"))
    ∧ (mapSeverityToLevel s = .note
        ↔ ¬(jsToLower s = "error" ∨ jsToLower s = "critical"
            ∨ jsToLower s = "warning" ∨ jsToLower s = "medium")) := by
  unfold mapSeverityToLevel
  by_cases ha : jsToLower s = "error"
  · simp [ha]
  · by_cases hb : jsToLower s = "critical"
    · simp [ha, hb]
    · by_cases hc : jsToLower s = "warning"
      · simp [ha, hb, hc]
      · by_cases hd : jsToLower s = "medium"
        · simp [ha, hb, hc, hd]
        · simp [ha, hb, hc, hd]

/-- Witness for C6 at the spec's sample inputs: "ERROR" maps to error,
"Medium" to warning, "low" and the empty string to note. -/
theorem c6_severity_mapping_witness :
    mapSeverityToLevel "ERROR" = .error
    ∧ mapSeverityToLevel "Medium" = .warning
    ∧ mapSeverityToLevel "low" = .note
    ∧ mapSeverityToLevel "" = .note :=
  ⟨(c6_severity_mapping "ERROR").1.mpr (Or.inl (by decide)),
   (c6_severity_mapping "Medium").2.1.mpr (Or.inr (by decide)),
   (c6_severity_mapping "low").2.2.mpr (by decide),
   (c6_severity_mapping "").2.2.mpr (by decide)⟩

/-- C7: the SARIF tool driver version is the first alert's projected
`tool_version` exactly when the level is full and the alert list is
non-empty; at minimum or medium level, or with no alerts (at any non-raw
level), it is the fixed placeholder "1.0.0". -/
theorem c7_sarif_tool_version (alerts : List CodeQLAlert) (detailLevel : DetailLevel) :
    (∀ a rest, detailLevel = .full → alerts = a :: rest →
      (sarifRunOf alerts detailLevel).toolDriverVersion = a.tool.version)
    ∧ ((detailLevel = .minimum ∨ detailLevel = .medium) →
      (sarifRunOf alerts detailLevel).toolDriverVersion = "1.0.0")
    ∧ (alerts = [] → detailLevel ≠ .raw →
      (sarifRunOf alerts detailLevel).toolDriverVersion = "1.0.0") := by
  refine ⟨?_, ?_, ?_⟩
  · intro a rest h1 h2
    subst h1; subst h2
    rfl
  · intro h
    rcases h with h | h <;> subst h <;> rfl
  · intro h _
    subst h
    cases detailLevel <;> rfl

/-- Witness for C7: with one sample alert, full level reads the alert's tool
version "2.0.0"; medium level and the empty list fall back to "1.0.0". -/
theorem c7_sarif_tool_version_witness :
    (sarifRunOf [sampleAlert] .full).toolDriverVersion = "2.0.0"
    ∧ (sarifRunOf [sampleAlert] .medium).toolDriverVersion = "1.0.0"
    ∧ (sarifRunOf [] .full).toolDriverVersion = "1.0.0" :=
  ⟨((c7_sarif_tool_version [sampleAlert] .full).1 sampleAlert [] rfl rfl).trans rfl,
   (c7_sarif_tool_version [sampleAlert] .medium).2.1 (Or.inr rfl),
   (c7_sarif_tool_version [] .full).2.2 rfl (by decide)⟩

/-- C8: at medium and full levels every emitted SARIF result's start column
is the projected alert's `start_column`; at minimum level, where the
projection carries no column, it is 1. -/
theorem c8_sarif_start_column (alerts : List CodeQLAlert) (detailLevel : DetailLevel) :
    ((detailLevel = .medium ∨ detailLevel = .full) →
      (sarifRunOf alerts detailLevel).results.map (fun r => r.startColumn)
        = alerts.map (fun a => a.most_recent_instance.location.start_column))
    ∧ (detailLevel = .minimum →
      (sarifRunOf alerts detailLevel).results.map (fun r => r.startColumn)
        = alerts.map (fun _ => 1)) := by
  constructor
  · intro h
    rcases h with h | h
    · subst h
      induction alerts with
      | nil => rfl
      | cons a tl _ =>
        simp [sarifRunOf, sarifResultOfFlat, filterAlertByDetail,
          FlatAlert.startColumnOr1]
    · subst h
      induction alerts with
      | nil => rfl
      | cons a tl _ =>
        simp [sarifRunOf, sarifResultOfFlat, filterAlertByDetail,
          FlatAlert.startColumnOr1]
  · intro h
    subst h
    induction alerts with
    | nil => rfl
    | cons a tl ih =>
      simpa [sarifRunOf, sarifResultOfFlat, filterAlertByDetail,
        FlatAlert.startColumnOr1] using ih

/-- Witness for C8: with one sample alert, medium level emits its start
column 5 while minimum level emits 1. -/
theorem c8_sarif_start_column_witness :
    (sarifRunOf [sampleAlert] .medium).results.map (fun r => r.startColumn) = [5]
    ∧ (sarifRunOf [sampleAlert] .minimum).results.map (fun r => r.startColumn) = [1] :=
  ⟨((c8_sarif_start_column [sampleAlert] .medium).1 (Or.inl rfl)).trans rfl,
   ((c8_sarif_start_column [sampleAlert] .minimum).2 rfl).trans rfl⟩

/-- C9: at minimum level both the plain-text and the markdown encoder render
each alert as the fixed block with no description, column-range or state
line, and at every projection level (minimum, medium, full) the commit hash
line of every alert appears in the encoder output lines. -/
theorem c9_minimum_level_rendering (alerts : List CodeQLAlert) (a : CodeQLAlert)
    (ha : a ∈ alerts) (repoName now : String) (detailLevel : DetailLevel)
    (hlvl : detailLevel = .minimum ∨ detailLevel = .medium ∨ detailLevel = .full) :
    textAlertBlock (filterAlertByDetail a .minimum) = specTextMinBlock a
    ∧ mdAlertBlock (filterAlertByDetail a .minimum) = specMdMinBlock a
    ∧ ("Commit: " ++ a.most_recent_instance.commit_sha) ∈ formatAsTextLines alerts detailLevel
    ∧ ("- **Commit:** `" ++ a.most_recent_instance.commit_sha ++ "`")
        ∈ formatAsMarkdownLines alerts repoName detailLevel now := by
  refine ⟨rfl, rfl, ?_, ?_⟩
  · have hb : ("Commit: " ++ a.most_recent_instance.commit_sha)
        ∈ textAlertBlock (filterAlertByDetail a detailLevel) := by
      rcases hlvl with h | h | h <;> subst h <;>
        simp [textAlertBlock, filterAlertByDetail, textDescLines, textColLines, textStateLines,
          FlatAlert.commit_sha]
    refine List.mem_append_right _ ?_
    exact List.mem_flatten.mpr
      ⟨textAlertBlock (filterAlertByDetail a detailLevel),
        List.mem_map_of_mem _ ha, hb⟩
  · have hb : ("- **Commit:** `" ++ a.most_recent_instance.commit_sha ++ "`")
        ∈ mdAlertBlock (filterAlertByDetail a detailLevel) := by
      rcases hlvl with h | h | h <;> subst h <;>
        simp [mdAlertBlock, filterAlertByDetail, mdDescLines, mdColLines, mdStateLines, mdRefLines,
          FlatAlert.commit_sha]
    refine List.mem_append_right _ ?_
    exact List.mem_flatten.mpr
      ⟨mdAlertBlock (filterAlertByDetail a detailLevel),
        List.mem_map_of_mem _ ha, hb⟩

/-- Witness for C9: evaluated on one sample alert at minimum level, the
blocks equal the minimal templates and both outputs contain the commit
line for commit `abc123`. -/
theorem c9_minimum_level_rendering_witness :
    textAlertBlock (filterAlertByDetail sampleAlert .minimum) = specTextMinBlock sampleAlert
    ∧ mdAlertBlock (filterAlertByDetail sampleAlert .minimum) = specMdMinBlock sampleAlert
    ∧ ("Commit: " ++ sampleAlert.most_recent_instance.commit_sha)
        ∈ formatAsTextLines [sampleAlert] .minimum
    ∧ ("- **Commit:** `" ++ sampleAlert.most_recent_instance.commit_sha ++ "`")
        ∈ formatAsMarkdownLines [sampleAlert] "octo/repo" .minimum "2024-01-01T00:00:00.000Z" :=
  c9_minimum_level_rendering [sampleAlert] sampleAlert (List.mem_singleton.mpr rfl)
    "octo/repo" "2024-01-01T00:00:00.000Z" .minimum (Or.inl rfl)

/-! ## Table-layout lemmas -/

/-- Length of an optional cell equals the length of the cell defaulted to
the empty string. -/
theorem jsCellLen_eq_getD (l : List String) (i : Nat) :
    jsCellLen (l.get? i) = (l.getD i "").length := by
  rw [List.get?_eq_getElem?, List.getD_eq_getElem?_getD]
  cases h : l[i]? <;> simp [jsCellLen]

/-- An optional cell defaulted by JS `||` equals `getD` with the empty
string. -/
theorem jsCellOrEmpty_eq_getD (l : List String) (i : Nat) :
    jsCellOrEmpty (l.get? i) = l.getD i "" := by
  rw [List.get?_eq_getElem?, List.getD_eq_getElem?_getD]
  cases h : l[i]? <;> simp [jsCellOrEmpty]

/-- A left max-fold over naturals equals the max of the seed with the
right max-fold seeded at zero. -/
theorem foldl_max_eq (l : List Nat) (a : Nat) :
    l.foldl Nat.max a = Nat.max a (l.foldr Nat.max 0) := by
  induction l generalizing a with
  | nil => simp
  | cons x xs ih => simp [List.foldl_cons, List.foldr_cons, ih (Nat.max a x), Nat.max_assoc]

/-- Mapping a function over an enumerated list is mapping the index-applied
function over the index range (any default works: it is only read in
bounds). -/
theorem enum_map_eq_range_map {α β : Type} (l : List α) (d : α) (g : Nat × α → β) :
    l.enum.map g = (List.range l.length).map (fun i => g (i, l.getD i d)) := by
  apply List.ext_getElem?
  intro i
  by_cases hi : i < l.length
  · rw [List.getElem?_map, List.getElem?_enum, List.getElem?_map, List.getElem?_range hi]
    simp [List.getD_eq_getElem?_getD, List.getElem?_eq_getElem hi]
  · have h1 : l[i]? = none := List.getElem?_eq_none (Nat.le_of_not_lt hi)
    have h2 : (List.range l.length)[i]? = none := by
      have := List.getElem?_eq_none (l := List.range l.length) (n := i)
      simp only [List.length_range] at this
      exact this (Nat.le_of_not_lt hi)
    rw [List.getElem?_map, List.getElem?_enum, h1, List.getElem?_map, h2]
    rfl

/-- Reading a mapped range list in bounds gives the function value. -/
theorem getD_map_range {β : Type} (n i : Nat) (f : Nat → β) (d : β) (h : i < n) :
    ((List.range n).map f).getD i d = f i := by
  rw [List.getD_eq_getElem?_getD, List.getElem?_map, List.getElem?_range h]
  rfl

/-- The fold the source computes for one column equals the spec's column
width formula. -/
theorem foldWidth_eq_spec (headers : List String) (rows : List (List String)) (i : Nat) :
    (rows.map (fun row => jsCellLen (row.get? i))).foldl Nat.max (headers.getD i "").length
      = specColWidth headers rows i := by
  rw [foldl_max_eq, specColWidth,
    List.map_congr_left (fun row _ => jsCellLen_eq_getD row i)]

/-- The source's column width list is the spec width at every header
position. -/
theorem tableColumnWidths_eq (headers : List String) (rows : List (List String)) :
    tableColumnWidths headers rows
      = (List.range headers.length).map (fun i => specColWidth headers rows i) := by
  rw [tableColumnWidths, enum_map_eq_range_map headers ""]
  exact List.map_congr_left (fun i _ => foldWidth_eq_spec headers rows i)

/-- The rendered header row follows the spec's formula. -/
theorem tableHeaderRow_eq (headers : List String) (rows : List (List String)) :
    tableHeaderRow headers (tableColumnWidths headers rows)
      = joinSep " | " ((List.range headers.length).map (fun i =>
          padEnd (headers.getD i "") (specColWidth headers rows i))) := by
  unfold tableHeaderRow
  congr 1
  rw [enum_map_eq_range_map headers ""]
  apply List.map_congr_left
  intro i hi
  rw [tableColumnWidths_eq, getD_map_range _ _ _ _ (List.mem_range.mp hi)]

/-- The rendered separator row follows the spec's formula. -/
theorem tableSepRow_eq (headers : List String) (rows : List (List String)) :
    tableSepRow (tableColumnWidths headers rows)
      = joinSep " | " ((List.range headers.length).map (fun i =>
          strRepeat '-' (specColWidth headers rows i))) := by
  unfold tableSepRow
  congr 1
  rw [tableColumnWidths_eq, List.map_map]
  rfl

/-- The rendered data row follows the spec's formula: a missing cell is
replaced by the empty string and padded to the spec width. -/
theorem tableDataRow_eq (headers : List String) (rows : List (List String)) (row : List String) :
    tableDataRow headers (tableColumnWidths headers rows) row
      = joinSep " | " ((List.range headers.length).map (fun i =>
          padEnd (row.getD i "") (specColWidth headers rows i))) := by
  unfold tableDataRow
  congr 1
  rw [enum_map_eq_range_map (tablePaddedCells headers row) ""]
  have hlen : (tablePaddedCells headers row).length = headers.length := by
    simp [tablePaddedCells]
  rw [hlen]
  apply List.map_congr_left
  intro i hi
  have hi' := List.mem_range.mp hi
  have hcell : (tablePaddedCells headers row).getD i "" = jsCellOrEmpty (row.get? i) := by
    unfold tablePaddedCells
    exact getD_map_range _ _ _ _ hi'
  rw [hcell, jsCellOrEmpty_eq_getD, tableColumnWidths_eq, getD_map_range _ _ _ _ hi']

/-- C5: `generateMarkdownTable` returns the empty string on empty input, and
otherwise renders header, separator and data rows where each column's width
is the maximum length among the header cell and all data cells at that
position (missing cells counting as empty, width 0), every cell is
right-padded to its column width, and a missing cell of a short row is
rendered as the empty string (totality on jagged rows is by construction). -/
theorem c5_table_layout (headers : List String) (rows : List (List String)) :
    generateMarkdownTable [] = ""
    ∧ generateMarkdownTable (headers :: rows)
      = joinLines
          (("| " ++ joinSep " | " ((List.range headers.length).map (fun i =>
              padEnd (headers.getD i "") (specColWidth headers rows i))) ++ " |")
            :: ("| " ++ joinSep " | " ((List.range headers.length).map (fun i =>
              strRepeat '-' (specColWidth headers rows i))) ++ " |")
            :: rows.map (fun row => "| " ++ joinSep " | " ((List.range headers.length).map (fun i =>
              padEnd (row.getD i "") (specColWidth headers rows i))) ++ " |")) := by
  refine ⟨rfl, ?_⟩
  show joinLines _ = joinLines _
  rw [tableHeaderRow_eq, tableSepRow_eq]
  apply congrArg joinLines
  apply congrArg
  apply congrArg
  exact List.map_congr_left (fun row _ => by rw [tableDataRow_eq])

/-- C10: rendered data rows are truncated to the header's column count: the
padded cell list always has exactly `headers.length` entries, cells beyond
the header length influence neither any rendered row nor any column width
(both are invariant under dropping them), the width list has exactly one
entry per header cell, and the whole table output is unchanged when every
data row is cut to the header length. -/
theorem c10_long_rows_truncated (headers : List String) (rows : List (List String))
    (row : List String) :
    (tablePaddedCells headers row).length = headers.length
    ∧ (tableColumnWidths headers rows).length = headers.length
    ∧ tablePaddedCells headers row = tablePaddedCells headers (row.take headers.length)
    ∧ tableDataRow headers (tableColumnWidths headers rows) row
        = tableDataRow headers (tableColumnWidths headers rows) (row.take headers.length)
    ∧ tableColumnWidths headers rows
        = tableColumnWidths headers (rows.map (fun r => r.take headers.length))
    ∧ generateMarkdownTable (headers :: rows)
        = generateMarkdownTable (headers :: rows.map (fun r => r.take headers.length)) := by
  have hspecw : ∀ rs : List (List String), ∀ i (_ : i < headers.length),
      specColWidth headers (rs.map (fun r => r.take headers.length)) i
        = specColWidth headers rs i := by
    intro rs i hi
    unfold specColWidth
    rw [List.map_map]
    congr 1
    congr 1
    apply List.map_congr_left
    intro r _
    show ((r.take headers.length).getD i "").length = (r.getD i "").length
    rw [List.getD_eq_getElem?_getD, List.getD_eq_getElem?_getD, List.getElem?_take, if_pos hi]
  have hpc : tablePaddedCells headers row = tablePaddedCells headers (row.take headers.length) := by
    unfold tablePaddedCells
    apply List.map_congr_left
    intro i hi
    rw [jsCellOrEmpty_eq_getD, jsCellOrEmpty_eq_getD, List.getD_eq_getElem?_getD,
      List.getD_eq_getElem?_getD, List.getElem?_take, if_pos (List.mem_range.mp hi)]
  have hw : tableColumnWidths headers rows
      = tableColumnWidths headers (rows.map (fun r => r.take headers.length)) := by
    rw [tableColumnWidths_eq, tableColumnWidths_eq]
    apply List.map_congr_left
    intro i hi
    exact (hspecw rows i (List.mem_range.mp hi)).symm
  have hdr : tableDataRow headers (tableColumnWidths headers rows) row
      = tableDataRow headers (tableColumnWidths headers rows) (row.take headers.length) := by
    unfold tableDataRow
    rw [hpc]
  refine ⟨by simp [tablePaddedCells], by simp [tableColumnWidths], hpc, hdr, hw, ?_⟩
  show joinLines _ = joinLines _
  rw [← hw]
  apply congrArg joinLines
  apply congrArg
  apply congrArg
  rw [List.map_map]
  apply List.map_congr_left
  intro r _
  show "| " ++ tableDataRow headers (tableColumnWidths headers rows) r ++ " |"
      = "| " ++ tableDataRow headers (tableColumnWidths headers rows) (r.take headers.length) ++ " |"
  rw [tableDataRow_eq, tableDataRow_eq]
  have : ∀ i (_ : i < headers.length), (r.take headers.length).getD i "" = r.getD i "" := by
    intro i hi
    rw [List.getD_eq_getElem?_getD, List.getD_eq_getElem?_getD, List.getElem?_take, if_pos hi]
  have hmap : (List.range headers.length).map (fun i =>
        padEnd ((r.take headers.length).getD i "") (specColWidth headers rows i))
      = (List.range headers.length).map (fun i =>
        padEnd (r.getD i "") (specColWidth headers rows i)) :=
    List.map_congr_left (fun i hi => by rw [this i (List.mem_range.mp hi)])
  rw [hmap]
